import Mathlib

/-
  Verification development for the appl_error_handler facility of
  libARStream (TestBench/IOS/ARStreamLive/ARStreamLive/ITTIAM/avc_decoder/
  includes/appl_error_handler.h).

  The repository ships only the header: three C-linkage prototypes guarded
  by an include guard.  The declaration surface, the include guard, and the
  facts about the types it uses are embedded from the header itself.  The
  runtime behaviour of the three operations is not in the repository; it is
  modelled from the specification (each such definition says so in its doc
  comment).
-/

namespace ApplErrorHandler

/-- Severity of a diagnostic emitted by the error reporter. -/
inductive Severity
  | error
  | warning
deriving DecidableEq, Repr

/-- State of the process as seen by the error reporter: the ordered
diagnostic sink (each entry is a severity paired with the bytes of the
message, terminating null excluded) and, once the process has terminated,
its exit status.  The facility itself keeps no other state. -/
structure ProcState where
  outputs : List (Severity × List Nat)
  exited : Option Nat
deriving DecidableEq, Repr

/-- Modelled from the spec: the header does not fix an exit status and the
implementation is absent from the repository; the end-to-end scenario of
the spec requires a non-zero status, stubbed here as 1. -/
def exitFailureStatus : Nat := 1

/-- Modelled from the spec: the implementation of appl_issue_error is not
in the repository (the header only declares it).  Per the spec it reports
an error-severity condition to the diagnostic sink and returns to the
caller without altering control flow. -/
def appl_issue_error (pi1_err_message : List Nat) (s : ProcState) : ProcState :=
  { s with outputs := s.outputs ++ [(Severity.error, pi1_err_message)] }

/-- Modelled from the spec: the implementation of appl_issue_warning is
not in the repository.  Per the spec it reports a warning-severity
condition, strictly informational, and returns to the caller. -/
def appl_issue_warning (pi1_warning_message : List Nat) (s : ProcState) : ProcState :=
  { s with outputs := s.outputs ++ [(Severity.warning, pi1_warning_message)] }

/-- Modelled from the spec: the implementation of appl_exit_with_error is
not in the repository.  Per the spec it reports an error condition and
then terminates the process with a non-zero status; it never returns to
the caller. -/
def appl_exit_with_error (pi1_warning_message : List Nat) (s : ProcState) : ProcState :=
  { outputs := s.outputs ++ [(Severity.error, pi1_warning_message)],
    exited := some exitFailureStatus }

/-- A call into the error-reporting facility, carrying its message. -/
inductive Call
  | issueError (msg : List Nat)
  | issueWarning (msg : List Nat)
  | exitWithError (msg : List Nat)
deriving DecidableEq, Repr

/-- Dispatch of one call to the modelled operation. -/
def runCall : Call → ProcState → ProcState
  | Call.issueError msg, s => appl_issue_error msg s
  | Call.issueWarning msg, s => appl_issue_warning msg s
  | Call.exitWithError msg, s => appl_exit_with_error msg s

/-- A caller program is a sequence of calls; a call executes only while
the process is still running, so nothing after a process exit runs. -/
def runProgram : List Call → ProcState → ProcState
  | [], s => s
  | c :: cs, s =>
      match s.exited with
      | some _ => s
      | none => runProgram cs (runCall c s)

/-- The diagnostic entries a single call appends to the sink; it depends
only on the call, not on any earlier state. -/
def callOutput : Call → List (Severity × List Nat)
  | Call.issueError msg => [(Severity.error, msg)]
  | Call.issueWarning msg => [(Severity.warning, msg)]
  | Call.exitWithError msg => [(Severity.error, msg)]

/-- Whether a call terminates the process. -/
def callExits : Call → Bool
  | Call.issueError _ => false
  | Call.issueWarning _ => false
  | Call.exitWithError _ => true

/-- The bytes of an ASCII string, as passed through a WORD8 pointer. -/
def bytesOf (s : String) : List Nat :=
  s.data.map (fun ch => ch.toNat)

/-- The process state before any diagnostic has been issued. -/
def initState : ProcState := { outputs := [], exited := none }

/-- One parameter of a C function declaration, as written in the header:
its type name, whether it is a pointer, whether the pointee is declared
const, and the parameter name. -/
structure CParam where
  typeName : String
  isPointer : Bool
  isConst : Bool
  paramName : String
deriving DecidableEq, Repr

/-- One C function declaration: name, return type and parameter list. -/
structure CFunDecl where
  name : String
  ret : String
  params : List CParam
deriving DecidableEq, Repr

/-- Line 98 of appl_error_handler.h:
void appl_issue_error(WORD8 *pi1_err_message); -/
def appl_issue_error_decl : CFunDecl :=
  { name := "appl_issue_error", ret := "void",
    params := [{ typeName := "WORD8", isPointer := true, isConst := false,
                 paramName := "pi1_err_message" }] }

/-- Line 99 of appl_error_handler.h:
void appl_issue_warning(WORD8 *pi1_warning_message); -/
def appl_issue_warning_decl : CFunDecl :=
  { name := "appl_issue_warning", ret := "void",
    params := [{ typeName := "WORD8", isPointer := true, isConst := false,
                 paramName := "pi1_warning_message" }] }

/-- Line 100 of appl_error_handler.h:
void appl_exit_with_error(WORD8 *pi1_warning_message); -/
def appl_exit_with_error_decl : CFunDecl :=
  { name := "appl_exit_with_error", ret := "void",
    params := [{ typeName := "WORD8", isPointer := true, isConst := false,
                 paramName := "pi1_warning_message" }] }

/-- The whole declaration surface of appl_error_handler.h, in source
order (lines 98 to 100): its Extern Function Declarations section holds
exactly these three prototypes, and the header declares nothing else. -/
def applErrorHandlerDecls : List CFunDecl :=
  [appl_issue_error_decl, appl_issue_warning_decl, appl_exit_with_error_decl]

/-- Files included by appl_error_handler.h: its File Includes section
(lines 67 to 69) is empty, the header includes nothing. -/
def headerIncludes : List String := []

/-- Type names defined by appl_error_handler.h itself: its Typedefs,
Enums and Structure sections are all empty. -/
def headerTypedefs : List String := []

/-- Type names the declarations of the header refer to, beyond the
built-in void: the parameter types of the three prototypes. -/
def usedTypeNames : List String :=
  (applErrorHandlerDecls.map (fun d => d.params.map (fun p => p.typeName))).flatten

/-- Whether the header compiles in a translation unit where the type
names in scope are exactly the given list: every type name the header
uses must be in scope already or defined by the header itself. -/
def headerCompiles (scope : List String) : Bool :=
  decide (∀ t ∈ usedTypeNames, t ∈ scope ∨ t ∈ headerTypedefs)

/-- The include guard macro of appl_error_handler.h (lines 64 to 65). -/
def guardMacro : String := "_APPL_ERROR_HANDLER_H_"

/-- One inclusion of appl_error_handler.h under the C preprocessor,
given the set of macros currently defined: if the guard macro is already
defined the body is skipped and nothing is emitted; otherwise the guard
is defined and the three declarations are emitted. -/
def includeHeader (defined : List String) : List CFunDecl × List String :=
  if guardMacro ∈ defined then ([], defined)
  else (applErrorHandlerDecls, guardMacro :: defined)

/-- The declarations emitted by n successive inclusions of the header,
with the resulting macro set. -/
def includeHeaderTimes : Nat → List String → List CFunDecl × List String
  | 0, defined => ([], defined)
  | n + 1, defined =>
      let first := includeHeader defined
      let rest := includeHeaderTimes n first.2
      (first.1 ++ rest.1, rest.2)

/-- Once the process has exited, no further statement of the caller
program runs: the state is frozen. -/
theorem runProgram_of_exited (prog : List Call) (s : ProcState) (k : Nat)
    (h : s.exited = some k) : runProgram prog s = s := by
  cases prog with
  | nil => rfl
  | cons c cs => simp [runProgram, h]

/-- After any inclusion of the header the guard macro is defined. -/
theorem guardMacro_mem_includeHeader (defined : List String) :
    guardMacro ∈ (includeHeader defined).2 := by
  by_cases h : guardMacro ∈ defined <;> simp [includeHeader, h]

/-- With the guard macro already defined, an inclusion is a no-op. -/
theorem includeHeader_of_mem (defined : List String)
    (h : guardMacro ∈ defined) : includeHeader defined = ([], defined) := by
  simp [includeHeader, h]

/-- With the guard macro already defined, any number of further
inclusions emits nothing and leaves the macro set unchanged. -/
theorem includeHeaderTimes_of_mem (n : Nat) (defined : List String)
    (h : guardMacro ∈ defined) : includeHeaderTimes n defined = ([], defined) := by
  induction n with
  | zero => rfl
  | succ m ih =>
      simp [includeHeaderTimes, includeHeader_of_mem defined h, ih]

/-- Claim C1: for every message, appl_exit_with_error reports the error
condition to the diagnostic sink and then terminates the process; in a
caller program it never returns control, so no statement after the call
runs; and it is the only one of the three operations with a control-flow
effect (the two issue operations leave the exit state untouched). -/
theorem exit_with_error_terminates_never_returns (msg : List Nat) (s : ProcState) :
    (appl_exit_with_error msg s).outputs = s.outputs ++ [(Severity.error, msg)] ∧
    (appl_exit_with_error msg s).exited = some exitFailureStatus ∧
    (∀ rest, s.exited = none →
      runProgram (Call.exitWithError msg :: rest) s = appl_exit_with_error msg s) ∧
    (appl_issue_error msg s).exited = s.exited ∧
    (appl_issue_warning msg s).exited = s.exited := by
  refine ⟨rfl, rfl, ?_, rfl, rfl⟩
  intro rest h
  have hrun : runProgram (Call.exitWithError msg :: rest) s =
      runProgram rest (appl_exit_with_error msg s) := by
    simp [runProgram, h, runCall]
  rw [hrun]
  exact runProgram_of_exited rest _ exitFailureStatus rfl

/-- Witness for the C1 theorem at a concrete input: from a fresh running
process, a program whose first call exits never reaches its second call. -/
theorem exit_with_error_terminates_never_returns_witness :
    initState.exited = none ∧
    runProgram [Call.exitWithError (bytesOf ("fatal")),
      Call.issueWarning (bytesOf ("after"))] initState =
      appl_exit_with_error (bytesOf ("fatal")) initState :=
  ⟨rfl, (exit_with_error_terminates_never_returns (bytesOf ("fatal")) initState).2.2.1
      [Call.issueWarning (bytesOf ("after"))] rfl⟩

/-- Claim C2: for every message, appl_issue_error and appl_issue_warning
never terminate the process (the exit state is unchanged) and always
return control to the caller: in a caller program execution continues
with the statements after the call. -/
theorem issue_ops_return_to_caller (msg : List Nat) (s : ProcState) :
    (appl_issue_error msg s).exited = s.exited ∧
    (appl_issue_warning msg s).exited = s.exited ∧
    ∀ rest, s.exited = none →
      runProgram (Call.issueError msg :: rest) s =
        runProgram rest (appl_issue_error msg s) ∧
      runProgram (Call.issueWarning msg :: rest) s =
        runProgram rest (appl_issue_warning msg s) := by
  refine ⟨rfl, rfl, ?_⟩
  intro rest h
  constructor <;> simp [runProgram, h, runCall]

/-- Witness for the C2 theorem at a concrete input. -/
theorem issue_ops_return_to_caller_witness :
    initState.exited = none ∧
    runProgram [Call.issueError (bytesOf ("e"))] initState =
      runProgram [] (appl_issue_error (bytesOf ("e")) initState) :=
  ⟨rfl, ((issue_ops_return_to_caller (bytesOf ("e")) initState).2.2 [] rfl).1⟩

/-- Claim C3: the external interface is exactly three C-linkage
operations, appl_issue_error, appl_issue_warning and appl_exit_with_error
in that order, each returning void and taking a single WORD8 pointer (a
byte-string message) as its only parameter. -/
theorem interface_exactly_three_void_ops :
    applErrorHandlerDecls.map (fun d => d.name) =
      ["appl_issue_error", "appl_issue_warning", "appl_exit_with_error"] ∧
    applErrorHandlerDecls.all
      (fun d => d.ret == "void" && d.params.length == 1 &&
        d.params.all (fun p => p.typeName == "WORD8" && p.isPointer)) = true :=
  ⟨rfl, rfl⟩

/-- Claim C4: invoking issue error on decode failed, then issue warning
on retrying, then exit with error on fatal out of memory, from a fresh
process, produces exactly three diagnostic outputs in call order and
terminates the process with a non-zero status after the third call. -/
theorem end_to_end_scenario :
    runProgram
      [Call.issueError (bytesOf ("decode failed")),
       Call.issueWarning (bytesOf ("retrying")),
       Call.exitWithError (bytesOf ("fatal: out of memory"))] initState =
      { outputs :=
          [(Severity.error, bytesOf ("decode failed")),
           (Severity.warning, bytesOf ("retrying")),
           (Severity.error, bytesOf ("fatal: out of memory"))],
        exited := some exitFailureStatus } ∧
    exitFailureStatus ≠ 0 :=
  ⟨rfl, by decide⟩

/-- Claim C5: none of the three operations defines a return value, error
code or failure condition of its own: every declaration returns void, and
no call propagates a failure back to its caller (the issue operations
leave the exit state unchanged; the exit operation terminates the process
directly). -/
theorem ops_define_no_return_value_or_failure (msg : List Nat) (s : ProcState) :
    applErrorHandlerDecls.all (fun d => d.ret == "void") = true ∧
    (appl_issue_error msg s).exited = s.exited ∧
    (appl_issue_warning msg s).exited = s.exited ∧
    (appl_exit_with_error msg s).exited = some exitFailureStatus :=
  ⟨rfl, rfl, rfl, rfl⟩

/-- Claim C6: for every non-empty message of typical ASCII bytes (each
byte positive and below 128, as in a null-terminated byte-string), each
of the three operations accepts the message: the call is defined and
records exactly that message in the diagnostic sink. -/
theorem ops_accept_ascii_messages (msg : List Nat) (s : ProcState)
    (_hne : msg ≠ []) (_hascii : ∀ b ∈ msg, 0 < b ∧ b < 128) :
    appl_issue_error msg s =
      { s with outputs := s.outputs ++ [(Severity.error, msg)] } ∧
    appl_issue_warning msg s =
      { s with outputs := s.outputs ++ [(Severity.warning, msg)] } ∧
    appl_exit_with_error msg s =
      { outputs := s.outputs ++ [(Severity.error, msg)],
        exited := some exitFailureStatus } :=
  ⟨rfl, rfl, rfl⟩

/-- Witness for the C6 theorem at a concrete one-character message. -/
theorem ops_accept_ascii_messages_witness :
    bytesOf ("a") ≠ [] ∧ (∀ b ∈ bytesOf ("a"), 0 < b ∧ b < 128) ∧
    appl_issue_error (bytesOf ("a")) initState =
      { initState with
        outputs := initState.outputs ++ [(Severity.error, bytesOf ("a"))] } :=
  ⟨by decide, by decide,
    (ops_accept_ascii_messages (bytesOf ("a")) initState (by decide) (by decide)).1⟩

/-- Claim C7: every call is a stateless, independent notification: its
effect is to append to the sink a record depending only on the call, its
control-flow effect depends only on the call, and the appended record
equals what the same call appends from a fresh state, so no earlier call
influences it; the state retains nothing of the facility beyond the sink
entries and the exit flag. -/
theorem calls_stateless_independent (c : Call) (s : ProcState) :
    (runCall c s).outputs = s.outputs ++ callOutput c ∧
    (runCall c s).exited =
      (if callExits c then some exitFailureStatus else s.exited) ∧
    (runCall c s).outputs.drop s.outputs.length = (runCall c initState).outputs := by
  cases c <;>
    simp [runCall, callOutput, callExits, appl_issue_error, appl_issue_warning,
      appl_exit_with_error, initState]

/-- Claim C8: inclusion of appl_error_handler.h is idempotent: thanks to
the include guard macro, any positive number of successive inclusions is
equivalent to a single one, and when the guard was not yet defined the
three declarations are emitted exactly once. -/
theorem include_guard_idempotent (n : Nat) (defined : List String) (h : 1 ≤ n) :
    includeHeaderTimes n defined = includeHeaderTimes 1 defined ∧
    (guardMacro ∉ defined →
      (includeHeaderTimes n defined).1 = applErrorHandlerDecls) := by
  cases n with
  | zero => exact absurd h (by decide)
  | succ m =>
      have hmem := guardMacro_mem_includeHeader defined
      have hstable : ∀ k, includeHeaderTimes k (includeHeader defined).2 =
          ([], (includeHeader defined).2) :=
        fun k => includeHeaderTimes_of_mem k _ hmem
      refine ⟨?_, ?_⟩
      · simp [includeHeaderTimes, hstable]
      · intro hnot
        have hstable2 : ∀ k, includeHeaderTimes k (guardMacro :: defined) =
            ([], guardMacro :: defined) :=
          fun k => includeHeaderTimes_of_mem k _ (List.mem_cons_self _ _)
        simp [includeHeaderTimes, includeHeader, hnot, hstable2]

/-- Witness for the C8 theorem: two inclusions starting from no defined
macros equal one inclusion, and emit the three declarations once. -/
theorem include_guard_idempotent_witness :
    (1 : Nat) ≤ 2 ∧ guardMacro ∉ ([] : List String) ∧
    includeHeaderTimes 2 [] = includeHeaderTimes 1 [] ∧
    (includeHeaderTimes 2 []).1 = applErrorHandlerDecls :=
  ⟨by decide, by decide, (include_guard_idempotent 2 [] (by decide)).1,
    (include_guard_idempotent 2 [] (by decide)).2 (by decide)⟩

/-- Claim C9: all three declarations take the message as a pointer to
non-const WORD8, so the declared interface nowhere marks the caller
message buffer const and gives no guarantee that it is left unmodified. -/
theorem message_params_nonconst_pointers :
    applErrorHandlerDecls.all
      (fun d => d.params.all (fun p => p.isPointer && !p.isConst)) = true :=
  rfl

/-- Claim C10: the header is not self-contained: it includes no file and
defines no type, yet its declarations use the type WORD8; hence any
translation unit in which the header compiles must already have WORD8 in
scope before including it. -/
theorem header_not_self_contained :
    headerIncludes = [] ∧ headerTypedefs = [] ∧ "WORD8" ∈ usedTypeNames ∧
    ∀ scope : List String, headerCompiles scope = true → "WORD8" ∈ scope := by
  refine ⟨rfl, rfl, by decide, ?_⟩
  intro scope hc
  simp only [headerCompiles] at hc
  rcases of_decide_eq_true hc "WORD8" (by decide) with hs | ht
  · exact hs
  · exact absurd ht (by decide)

/-- Witness for the C10 theorem: with WORD8 alone in scope the header
compiles, and the theorem recovers that WORD8 is in that scope. -/
theorem header_not_self_contained_witness :
    headerCompiles ["WORD8"] = true ∧ "WORD8" ∈ (["WORD8"] : List String) :=
  ⟨by decide, header_not_self_contained.2.2.2 ["WORD8"] (by decide)⟩

end ApplErrorHandler
